import Mathlib

/-!
# Verification of the Ruby binding layer `solve_trajectory` (src/lib.rs)

The repository is a Ruby native-extension binding around the external
`ballistics_engine` crate.  The sole source file, `src/lib.rs`, defines
`solve_trajectory(ruby, inputs_hash)`: it extracts caller-native imperial
values from a Ruby hash, converts them to the structures expected by the
core crate (`BallisticInputs`, `WindConditions`, `AtmosphericConditions`),
invokes `TrajectorySolver::new(...).solve()`, and converts the resulting
`TrajectoryResult` back to a Ruby hash in caller-native units.

Shallow embedding choices:
* Ruby/Rust `f64` values are modelled as `ℚ`.  Every numeric constant of
  the source is carried over exactly; `std::f64::consts::PI` is modelled by
  the exact rational value of the IEEE-754 double nearest π (no theorem
  below depends on the value of this constant, only on where it is used).
* The input Ruby hash is modelled as a structure.  Required keys (read with
  `fetch`, which raises when the key is absent or ill-typed) are plain
  fields: the structure represents exactly the hashes whose required reads
  succeed.  Optional keys (read with `lookup2(key, default)` or
  `lookup::<_, Option<RHash>>`) are `Option` fields.
* The core crate is not part of this repository; `solve_trajectory` is
  parametrised by the core solver as a function
  `BallisticInputs → WindConditions → AtmosphericConditions →
   Except String TrajectoryResult` (the `String` is the core error's
  `to_string()` rendering, which the binding wraps in a Ruby
  `RuntimeError`).  Quantifying theorems over this parameter expresses
  that a behaviour holds before / independently of any core solver work.
* `magnus::Error` values produced by the binding are modelled by
  `RubyError`.
-/

/-- Unit conversion constant `GRAINS_TO_KG` from src/lib.rs. -/
def GRAINS_TO_KG : ℚ := 0.00006479891

/-- Unit conversion constant `FPS_TO_MPS` from src/lib.rs. -/
def FPS_TO_MPS : ℚ := 0.3048

/-- Unit conversion constant `YARDS_TO_METERS` from src/lib.rs. -/
def YARDS_TO_METERS : ℚ := 0.9144

/-- Unit conversion constant `INCHES_TO_METERS` from src/lib.rs. -/
def INCHES_TO_METERS : ℚ := 0.0254

/-- Unit conversion constant `MPH_TO_MPS` from src/lib.rs. -/
def MPH_TO_MPS : ℚ := 0.44704

/-- Exact rational value of the IEEE-754 double `std::f64::consts::PI`. -/
def PI_F64 : ℚ := 884279719003555 / 281474976710656

/-- Unit conversion constant `DEGREES_TO_RADIANS = std::f64::consts::PI / 180.0`
from src/lib.rs.  (The final double rounding of the quotient is immaterial:
no theorem below depends on the value of this constant.) -/
def DEGREES_TO_RADIANS : ℚ := PI_F64 / 180

/-- Conversion factor from joules to foot-pounds, written inline as the
literal `0.737562` in src/lib.rs. -/
def JOULES_TO_FTLBS : ℚ := 0.737562

/-- Conversion factor from inches of mercury to pascals, written inline as
the literal `3386.389` in src/lib.rs. -/
def INHG_TO_PA : ℚ := 3386.389

/-- The `DragModel` enum of the `ballistics_engine` crate, restricted to the
variants named in src/lib.rs. -/
inductive DragModel where
  | G1 : DragModel
  | G7 : DragModel
  | G8 : DragModel
deriving DecidableEq, Repr

/-- The fields of the `ballistics_engine::BallisticInputs` struct that
src/lib.rs sets explicitly (the remaining fields come from
`..Default::default()` and are never read or written by the binding, so
they are not part of the model). -/
structure BallisticInputs where
  bc_type : DragModel
  bc_value : ℚ
  bullet_diameter : ℚ
  bullet_mass : ℚ
  bullet_length : ℚ
  muzzle_velocity : ℚ
  sight_height : ℚ
  target_distance : ℚ
  shooting_angle : ℚ
  twist_rate : ℚ
  is_twist_right : Bool
  caliber_inches : ℚ
  weight_grains : ℚ
deriving DecidableEq, Repr

/-- The `ballistics_engine::WindConditions` struct. -/
structure WindConditions where
  speed : ℚ
  direction : ℚ
deriving DecidableEq, Repr

/-- The `ballistics_engine::AtmosphericConditions` struct. -/
structure AtmosphericConditions where
  temperature : ℚ
  pressure : ℚ
  humidity : ℚ
  altitude : ℚ
deriving DecidableEq, Repr

/-- A 3-vector as used by `point.position` in src/lib.rs. -/
structure Vec3 where
  x : ℚ
  y : ℚ
  z : ℚ
deriving DecidableEq, Repr

/-- The fields of a core trajectory point that src/lib.rs reads. -/
structure TrajectoryPoint where
  time : ℚ
  position : Vec3
  velocity_magnitude : ℚ
  kinetic_energy : ℚ
deriving DecidableEq, Repr

/-- The fields of `ballistics_engine::TrajectoryResult` that src/lib.rs
reads. -/
structure TrajectoryResult where
  max_range : ℚ
  max_height : ℚ
  time_of_flight : ℚ
  impact_velocity : ℚ
  impact_energy : ℚ
  points : List TrajectoryPoint
deriving DecidableEq, Repr

/-- The optional `wind` sub-hash: both keys are read with `lookup2`
defaults. -/
structure WindHash where
  speed_mph : Option ℚ
  direction_degrees : Option ℚ
deriving DecidableEq, Repr

/-- The optional `atmosphere` sub-hash: all four keys are read with
`lookup2` defaults. -/
structure AtmHash where
  temperature_f : Option ℚ
  pressure_inhg : Option ℚ
  humidity_percent : Option ℚ
  altitude_feet : Option ℚ
deriving DecidableEq, Repr

/-- The input Ruby hash as read by `solve_trajectory`.  Plain fields are the
required keys (fetched with `fetch`, so the structure models exactly the
hashes accepted by the required reads); `Option` fields are the optional
keys. -/
structure InputsHash where
  bc : ℚ
  bullet_weight_grains : ℚ
  muzzle_velocity_fps : ℚ
  bullet_diameter_inches : ℚ
  bullet_length_inches : ℚ
  sight_height_inches : ℚ
  zero_distance_yards : ℚ
  shooting_angle_degrees : Option ℚ
  twist_rate_inches : Option ℚ
  is_right_twist : Option Bool
  drag_model : Option String
  wind : Option WindHash
  atmosphere : Option AtmHash
deriving DecidableEq, Repr

/-- Errors raised by the binding itself (`magnus::Error`): `argError` models
`Error::new(ruby.exception_arg_error(), msg)` and `runtimeError` models
`Error::new(ruby.exception_runtime_error(), msg)`. -/
inductive RubyError where
  | argError : String → RubyError
  | runtimeError : String → RubyError
deriving DecidableEq, Repr

/-- One entry of the output `points` array built by the loop in
src/lib.rs. -/
structure PointHash where
  time : ℚ
  x : ℚ
  y : ℚ
  z : ℚ
  velocity_fps : ℚ
  energy_ftlbs : ℚ
deriving DecidableEq, Repr

/-- The output Ruby hash built by `solve_trajectory` on success. -/
structure ResultHash where
  max_range_yards : ℚ
  max_height_yards : ℚ
  time_of_flight : ℚ
  impact_velocity_fps : ℚ
  impact_energy_ftlbs : ℚ
  points : List PointHash
deriving DecidableEq, Repr

/-- Rust `str::to_uppercase` restricted to the alphabet relevant to the
drag-model match (ASCII letters and digits), where it maps each character
through the ASCII upper-casing that `Char.toUpper` implements.  (Rust's
full Unicode upper-casing differs from per-character ASCII upper-casing
only on characters that can never produce the ASCII strings "G1", "G7",
"G8" matched against below.) -/
def rustToUppercase (s : String) : String :=
  String.mk (s.data.map Char.toUpper)

/-- The error value returned for an unrecognized drag-model token. -/
def invalidDragModelError : RubyError :=
  RubyError.argError "Invalid drag_model, must be G1, G7, or G8"

/-- The `match drag_model_str.to_uppercase().as_str()` expression of
src/lib.rs, written as the equivalent first-match comparison chain. -/
def parseDragModel (s : String) : Except RubyError DragModel :=
  if rustToUppercase s = "G1" then Except.ok DragModel.G1
  else if rustToUppercase s = "G7" then Except.ok DragModel.G7
  else if rustToUppercase s = "G8" then Except.ok DragModel.G8
  else Except.error invalidDragModelError

/-- The `BallisticInputs { ... }` construction of src/lib.rs, given the
already-parsed drag model. -/
def ballisticInputsOf (h : InputsHash) (dm : DragModel) : BallisticInputs :=
  { bc_type := dm
    bc_value := h.bc
    bullet_diameter := h.bullet_diameter_inches * INCHES_TO_METERS
    bullet_mass := h.bullet_weight_grains * GRAINS_TO_KG
    bullet_length := h.bullet_length_inches * INCHES_TO_METERS
    muzzle_velocity := h.muzzle_velocity_fps * FPS_TO_MPS
    sight_height := h.sight_height_inches * INCHES_TO_METERS
    target_distance := h.zero_distance_yards * YARDS_TO_METERS
    shooting_angle := (h.shooting_angle_degrees.getD 0) * DEGREES_TO_RADIANS
    twist_rate := h.twist_rate_inches.getD 10
    is_twist_right := h.is_right_twist.getD true
    caliber_inches := h.bullet_diameter_inches
    weight_grains := h.bullet_weight_grains }

/-- The `let wind = if let Some(wind_hash) = ... ` branch of src/lib.rs. -/
def windOf : Option WindHash → WindConditions
  | some wh =>
    { speed := (wh.speed_mph.getD 0) * MPH_TO_MPS
      direction := (wh.direction_degrees.getD 0) * DEGREES_TO_RADIANS }
  | none => { speed := 0, direction := 0 }

/-- The `let atmosphere = if let Some(atm_hash) = ...` branch of
src/lib.rs: explicit hashes are converted from °F / inHg / feet, the
default branch is the standard ICAO atmosphere literal. -/
def atmosphereOf : Option AtmHash → AtmosphericConditions
  | some ah =>
    { temperature := ((ah.temperature_f.getD 59) - 32) * 5 / 9
      pressure := (ah.pressure_inhg.getD 29.92) * INHG_TO_PA
      humidity := ah.humidity_percent.getD 50
      altitude := (ah.altitude_feet.getD 0) * 0.3048 }
  | none => { temperature := 15, pressure := 101325, humidity := 50, altitude := 0 }

/-- The core solver call: `TrajectorySolver::new(inputs, wind, atmosphere)`
followed by `.solve()`.  The core crate is not part of this repository, so
the solver is a parameter; a core error is its `to_string()` rendering. -/
abbrev CoreSolver :=
  BallisticInputs → WindConditions → AtmosphericConditions →
    Except String TrajectoryResult

/-- The per-point hash built by the `for point in result.points` loop of
src/lib.rs. -/
def pointHashOf (p : TrajectoryPoint) : PointHash :=
  { time := p.time
    x := p.position.x / YARDS_TO_METERS
    y := p.position.y / YARDS_TO_METERS
    z := p.position.z / YARDS_TO_METERS
    velocity_fps := p.velocity_magnitude / FPS_TO_MPS
    energy_ftlbs := p.kinetic_energy * JOULES_TO_FTLBS }

/-- The output-hash construction of src/lib.rs (the `result_hash.aset`
calls and the points loop). -/
def resultHashOf (r : TrajectoryResult) : ResultHash :=
  { max_range_yards := r.max_range / YARDS_TO_METERS
    max_height_yards := r.max_height / YARDS_TO_METERS
    time_of_flight := r.time_of_flight
    impact_velocity_fps := r.impact_velocity / FPS_TO_MPS
    impact_energy_ftlbs := r.impact_energy * JOULES_TO_FTLBS
    points := r.points.map pointHashOf }

/-- Everything `solve_trajectory` does after the drag-model token has been
parsed: build the three core input structures, run the core solver
(mapping a core error into a Ruby `RuntimeError` carrying its
`to_string()`), and assemble the output hash. -/
def solveAfterDrag (core : CoreSolver) (h : InputsHash) (dm : DragModel) :
    Except RubyError ResultHash :=
  match core (ballisticInputsOf h dm) (windOf h.wind) (atmosphereOf h.atmosphere) with
  | Except.error e => Except.error (RubyError.runtimeError e)
  | Except.ok r => Except.ok (resultHashOf r)

/-- `solve_trajectory` from src/lib.rs: parse the drag-model token (default
`"G7"`), then hand the converted structures to the core solver and convert
its result back. -/
def solve_trajectory (core : CoreSolver) (h : InputsHash) :
    Except RubyError ResultHash :=
  match parseDragModel (h.drag_model.getD "G7") with
  | Except.error e => Except.error e
  | Except.ok dm => solveAfterDrag core h dm

instance instDecEqExcept {ε α : Type} [DecidableEq ε] [DecidableEq α] :
    DecidableEq (Except ε α) :=
  fun a b =>
    match a, b with
    | Except.error e, Except.error f =>
      if h : e = f then isTrue (by rw [h]) else isFalse (by intro hc; cases hc; exact h rfl)
    | Except.ok x, Except.ok y =>
      if h : x = y then isTrue (by rw [h]) else isFalse (by intro hc; cases hc; exact h rfl)
    | Except.error _, Except.ok _ => isFalse (by intro hc; cases hc)
    | Except.ok _, Except.error _ => isFalse (by intro hc; cases hc)

/-- A concrete accepted input hash (a conventional .308 load) used to
instantiate universally quantified theorems: all optional keys absent. -/
def sampleHash : InputsHash :=
  { bc := 0.3
    bullet_weight_grains := 168
    muzzle_velocity_fps := 2650
    bullet_diameter_inches := 0.308
    bullet_length_inches := 1.24
    sight_height_inches := 1.5
    zero_distance_yards := 100
    shooting_angle_degrees := none
    twist_rate_inches := none
    is_right_twist := none
    drag_model := none
    wind := none
    atmosphere := none }

/-- A core solver that always fails with a fixed human-readable message. -/
def coreFailStub : CoreSolver := fun _ _ _ => Except.error "solver failed"

/-- A concrete core result used to instantiate success-path theorems. -/
def sampleResult : TrajectoryResult :=
  { max_range := 914.4
    max_height := 3
    time_of_flight := 1.2
    impact_velocity := 400
    impact_energy := 800
    points :=
      [{ time := 0
         position := { x := 0, y := 0, z := 0 }
         velocity_magnitude := 807.72
         kinetic_energy := 3500 }] }

/-- A core solver that always succeeds with `sampleResult`. -/
def coreOkStub : CoreSolver := fun _ _ _ => Except.ok sampleResult

/-- C10: every `BallisticInputs` structure constructed by `solve_trajectory`
keeps its duplicated SI and imperial fields mutually consistent:
`bullet_diameter` equals `caliber_inches * 0.0254` and `bullet_mass` equals
`weight_grains * 0.00006479891`, because both copies are derived from the
same input-hash values. -/
theorem si_imperial_fields_consistent (h : InputsHash) (dm : DragModel) :
    (ballisticInputsOf h dm).bullet_diameter
        = (ballisticInputsOf h dm).caliber_inches * INCHES_TO_METERS ∧
    (ballisticInputsOf h dm).bullet_mass
        = (ballisticInputsOf h dm).weight_grains * GRAINS_TO_KG :=
  ⟨rfl, rfl⟩

/-- C5: when the `wind` key is absent from the input hash the core is handed
zero-wind conditions (speed 0, direction 0), and when the `atmosphere` key
is absent it is handed the standard ICAO sea-level atmosphere
(15 °C, 101325 Pa, 50 % humidity, 0 m altitude). -/
theorem absent_keys_give_standard_conditions (h : InputsHash) :
    (h.wind = none → windOf h.wind = { speed := 0, direction := 0 }) ∧
    (h.atmosphere = none →
      atmosphereOf h.atmosphere
        = { temperature := 15, pressure := 101325, humidity := 50, altitude := 0 }) :=
  ⟨fun hw => by rw [hw]; rfl, fun ha => by rw [ha]; rfl⟩

/-- Witness for C5 at the concrete hash `sampleHash`. -/
theorem absent_keys_give_standard_conditions_witness :
    windOf sampleHash.wind = { speed := 0, direction := 0 } ∧
    atmosphereOf sampleHash.atmosphere
      = { temperature := 15, pressure := 101325, humidity := 50, altitude := 0 } :=
  ⟨(absent_keys_give_standard_conditions sampleHash).1 rfl,
   (absent_keys_give_standard_conditions sampleHash).2 rfl⟩

/-- C6: when the optional scalar keys are absent from the input hash,
shooting angle defaults to 0 (radians), twist handedness defaults to right,
and twist rate defaults to 10 inches per turn. -/
theorem optional_scalar_defaults (h : InputsHash) (dm : DragModel) :
    (h.shooting_angle_degrees = none → (ballisticInputsOf h dm).shooting_angle = 0) ∧
    (h.is_right_twist = none → (ballisticInputsOf h dm).is_twist_right = true) ∧
    (h.twist_rate_inches = none → (ballisticInputsOf h dm).twist_rate = 10) := by
  refine ⟨fun ha => ?_, fun ht => ?_, fun hr => ?_⟩
  · simp [ballisticInputsOf, ha]
  · simp [ballisticInputsOf, ht]
  · simp [ballisticInputsOf, hr]

/-- Witness for C6 at the concrete hash `sampleHash`. -/
theorem optional_scalar_defaults_witness :
    (ballisticInputsOf sampleHash DragModel.G7).shooting_angle = 0 ∧
    (ballisticInputsOf sampleHash DragModel.G7).is_twist_right = true ∧
    (ballisticInputsOf sampleHash DragModel.G7).twist_rate = 10 :=
  ⟨(optional_scalar_defaults sampleHash DragModel.G7).1 rfl,
   (optional_scalar_defaults sampleHash DragModel.G7).2.1 rfl,
   (optional_scalar_defaults sampleHash DragModel.G7).2.2 rfl⟩

/-- C9: when the `drag_model` key is absent from the input hash,
`solve_trajectory` does not fail with the invalid-drag-model error: it
proceeds with the drag model defaulted to G7. -/
theorem absent_drag_model_defaults_G7 (core : CoreSolver) (h : InputsHash)
    (hdm : h.drag_model = none) :
    solve_trajectory core h = solveAfterDrag core h DragModel.G7 ∧
    solve_trajectory core h ≠ Except.error invalidDragModelError := by
  have h1 : solve_trajectory core h = solveAfterDrag core h DragModel.G7 := by
    unfold solve_trajectory
    rw [hdm]
    rfl
  refine ⟨h1, ?_⟩
  rw [h1]
  unfold solveAfterDrag
  cases hcore : core (ballisticInputsOf h DragModel.G7) (windOf h.wind)
      (atmosphereOf h.atmosphere) with
  | error e => simp [invalidDragModelError]
  | ok r => simp

/-- Witness for C9 at the concrete hash `sampleHash` (whose `drag_model`
key is absent) and the concrete core `coreFailStub`. -/
theorem absent_drag_model_defaults_G7_witness :
    solve_trajectory coreFailStub sampleHash
        = solveAfterDrag coreFailStub sampleHash DragModel.G7 ∧
    solve_trajectory coreFailStub sampleHash ≠ Except.error invalidDragModelError :=
  absent_drag_model_defaults_G7 coreFailStub sampleHash rfl

/-- A concrete input hash carrying the unrecognized drag-model token
`"G3"`. -/
def badTokenHash : InputsHash := { sampleHash with drag_model := some "G3" }

/-- C2: the drag-model token is matched case-insensitively against G1, G7,
and G8 (a token whose upper-casing is `"G7"`, e.g. `"g7"`, is accepted as
G7), and any other token makes `solve_trajectory` return the
invalid-drag-model validation error; the conclusion holds for every core
solver, so no solver construction or integration work is performed. -/
theorem drag_model_token_matching :
    (∀ t, rustToUppercase t = "G1" → parseDragModel t = Except.ok DragModel.G1) ∧
    (∀ t, rustToUppercase t = "G7" → parseDragModel t = Except.ok DragModel.G7) ∧
    (∀ t, rustToUppercase t = "G8" → parseDragModel t = Except.ok DragModel.G8) ∧
    (∀ (core : CoreSolver) (h : InputsHash) (s : String),
      h.drag_model = some s →
      rustToUppercase s ≠ "G1" → rustToUppercase s ≠ "G7" → rustToUppercase s ≠ "G8" →
      solve_trajectory core h = Except.error invalidDragModelError) := by
  refine ⟨fun t ht => ?_, fun t ht => ?_, fun t ht => ?_,
    fun core h s hs h1 h7 h8 => ?_⟩
  · unfold parseDragModel
    rw [ht]
    decide
  · unfold parseDragModel
    rw [ht]
    decide
  · unfold parseDragModel
    rw [ht]
    decide
  · have hp : parseDragModel s = Except.error invalidDragModelError := by
      unfold parseDragModel
      rw [if_neg h1, if_neg h7, if_neg h8]
    unfold solve_trajectory
    rw [hs]
    simp only [Option.getD]
    rw [hp]

/-- Witness for C2: the lower-case token `"g7"` parses as G7, and the
unrecognized token `"G3"` makes the call fail with the invalid-drag-model
error under the concrete core `coreFailStub`. -/
theorem drag_model_token_matching_witness :
    parseDragModel "g7" = Except.ok DragModel.G7 ∧
    solve_trajectory coreFailStub badTokenHash = Except.error invalidDragModelError :=
  ⟨drag_model_token_matching.2.1 "g7" (by decide),
   drag_model_token_matching.2.2.2 coreFailStub badTokenHash "G3" rfl
     (by decide) (by decide) (by decide)⟩

/-- The property of claim C1 exactly as stated: every field handed to the
core solver is in canonical SI units — bullet mass in kg, muzzle velocity
in m/s, diameter/length/sight height in m, zero distance in m, shooting
angle in radians, wind speed in m/s, wind direction in radians, and (the
part the code does not do) the twist rate as an SI length in meters per
turn. -/
def allCoreFieldsSI : Prop :=
  ∀ (h : InputsHash) (dm : DragModel) (wh : WindHash),
    (ballisticInputsOf h dm).bullet_mass = h.bullet_weight_grains * GRAINS_TO_KG ∧
    (ballisticInputsOf h dm).muzzle_velocity = h.muzzle_velocity_fps * FPS_TO_MPS ∧
    (ballisticInputsOf h dm).bullet_diameter = h.bullet_diameter_inches * INCHES_TO_METERS ∧
    (ballisticInputsOf h dm).bullet_length = h.bullet_length_inches * INCHES_TO_METERS ∧
    (ballisticInputsOf h dm).sight_height = h.sight_height_inches * INCHES_TO_METERS ∧
    (ballisticInputsOf h dm).target_distance = h.zero_distance_yards * YARDS_TO_METERS ∧
    (ballisticInputsOf h dm).shooting_angle
        = (h.shooting_angle_degrees.getD 0) * DEGREES_TO_RADIANS ∧
    (windOf (some wh)).speed = (wh.speed_mph.getD 0) * MPH_TO_MPS ∧
    (windOf (some wh)).direction = (wh.direction_degrees.getD 0) * DEGREES_TO_RADIANS ∧
    (ballisticInputsOf h dm).twist_rate = (h.twist_rate_inches.getD 10) * INCHES_TO_METERS

/-- Counterexample to C1 as stated: at the concrete hash `sampleHash` the
twist rate handed to the core is 10 (inches per turn, copied through
unchanged), not 10 × 0.0254 m per turn, so not every field is in canonical
SI units. -/
theorem not_all_core_fields_si : ¬ allCoreFieldsSI := by
  intro hcl
  have htw := (hcl sampleHash DragModel.G7
    { speed_mph := none, direction_degrees := none }).2.2.2.2.2.2.2.2.2
  rw [show (ballisticInputsOf sampleHash DragModel.G7).twist_rate = 10 from rfl] at htw
  rw [show sampleHash.twist_rate_inches.getD 10 = 10 from rfl] at htw
  norm_num [INCHES_TO_METERS] at htw

/-- C1 (amended): every enumerated field handed to the core solver is
converted to canonical SI units — bullet mass in kg (grains × 0.00006479891),
muzzle velocity in m/s (fps × 0.3048), diameter, length and sight height in
m (inches × 0.0254), zero/target distance in m (yards × 0.9144), shooting
angle in radians (degrees × π/180), wind speed in m/s (mph × 0.44704), wind
direction in radians — except the twist rate, which is handed to the core
unchanged in inches per turn (the core struct's `twist_rate` field is
inch-denominated, as the source comment records). -/
theorem core_fields_units_amended (h : InputsHash) (dm : DragModel) (wh : WindHash) :
    (ballisticInputsOf h dm).bullet_mass = h.bullet_weight_grains * GRAINS_TO_KG ∧
    (ballisticInputsOf h dm).muzzle_velocity = h.muzzle_velocity_fps * FPS_TO_MPS ∧
    (ballisticInputsOf h dm).bullet_diameter = h.bullet_diameter_inches * INCHES_TO_METERS ∧
    (ballisticInputsOf h dm).bullet_length = h.bullet_length_inches * INCHES_TO_METERS ∧
    (ballisticInputsOf h dm).sight_height = h.sight_height_inches * INCHES_TO_METERS ∧
    (ballisticInputsOf h dm).target_distance = h.zero_distance_yards * YARDS_TO_METERS ∧
    (ballisticInputsOf h dm).shooting_angle
        = (h.shooting_angle_degrees.getD 0) * DEGREES_TO_RADIANS ∧
    (windOf (some wh)).speed = (wh.speed_mph.getD 0) * MPH_TO_MPS ∧
    (windOf (some wh)).direction = (wh.direction_degrees.getD 0) * DEGREES_TO_RADIANS ∧
    (ballisticInputsOf h dm).twist_rate = h.twist_rate_inches.getD 10 :=
  ⟨rfl, rfl, rfl, rfl, rfl, rfl, rfl, rfl, rfl, rfl⟩

/-- The atmosphere hash carrying the caller-native equivalents of the
standard ICAO values: 59 °F (= 15 °C), 101325/3386.389 inHg (= 101325 Pa),
50 % humidity, 0 ft (= 0 m). -/
def icaoAtmHash : AtmHash :=
  { temperature_f := some 59
    pressure_inhg := some (101325 / INHG_TO_PA)
    humidity_percent := some 50
    altitude_feet := some 0 }

/-- C3: solving with no atmosphere supplied produces the same result as
solving with an atmosphere hash that explicitly states the ICAO-equivalent
caller-native values: the `AtmosphericConditions` structure built from the
default branch equals the one built from the explicit hash, and hence the
whole call gives the same result for every core solver. -/
theorem icao_atmosphere_round_trip :
    atmosphereOf (some icaoAtmHash) = atmosphereOf none ∧
    ∀ (core : CoreSolver) (h : InputsHash),
      solve_trajectory core { h with atmosphere := none }
        = solve_trajectory core { h with atmosphere := some icaoAtmHash } := by
  have hatm : atmosphereOf (some icaoAtmHash) = atmosphereOf none := by
    simp only [atmosphereOf, icaoAtmHash, Option.getD, AtmosphericConditions.mk.injEq]
    norm_num [INHG_TO_PA]
  refine ⟨hatm, fun core h => ?_⟩
  obtain ⟨bc, wg, mv, bd, bl, sh, zd, sa, tr, rt, dmo, w, atm⟩ := h
  dsimp only [solve_trajectory, solveAfterDrag, ballisticInputsOf, windOf]
  rw [hatm]

/-- Modelled from the spec: the human-readable description carried by the
core validation error (spec §7 requires a human-readable description; its
exact wording is not recoverable from this repository). -/
def validationErrorMsg : String :=
  "ValidationError: ballistic coefficient, mass, diameter, length, and muzzle velocity must be strictly positive"

/-- Modelled from the spec: the input validation step of the core
`TrajectorySolver` (crate `ballistics_engine`, which is not part of this
repository — only its caller is).  Spec §3: "Invariants: ballistic
coefficient, mass, diameter, length, muzzle velocity are strictly
positive — violation fails validation before integration begins", and §7:
validation errors are "rejected before any simulation work begins" and
carry a human-readable description.  `integrate` abstracts all solver work
that follows validation. -/
def specValidatingSolver (integrate : CoreSolver) : CoreSolver :=
  fun bi w a =>
    if bi.bc_value ≤ 0 ∨ bi.bullet_mass ≤ 0 ∨ bi.bullet_diameter ≤ 0 ∨
        bi.bullet_length ≤ 0 ∨ bi.muzzle_velocity ≤ 0 then
      Except.error validationErrorMsg
    else integrate bi w a

/-- C4: if ballistic coefficient, bullet mass, diameter, length, or muzzle
velocity in the input hash is not strictly positive, the call fails
validation before any integration begins — the conclusion holds uniformly
in the post-validation solver `integrate`, so no simulation work is
performed on such inputs. -/
theorem nonpositive_inputs_fail_validation (integrate : CoreSolver)
    (h : InputsHash) (dm : DragModel)
    (hdm : parseDragModel (h.drag_model.getD "G7") = Except.ok dm)
    (hnp : h.bc ≤ 0 ∨ h.bullet_weight_grains ≤ 0 ∨ h.bullet_diameter_inches ≤ 0 ∨
      h.bullet_length_inches ≤ 0 ∨ h.muzzle_velocity_fps ≤ 0) :
    solve_trajectory (specValidatingSolver integrate) h
      = Except.error (RubyError.runtimeError validationErrorMsg) := by
  have hcond : (ballisticInputsOf h dm).bc_value ≤ 0 ∨
      (ballisticInputsOf h dm).bullet_mass ≤ 0 ∨
      (ballisticInputsOf h dm).bullet_diameter ≤ 0 ∨
      (ballisticInputsOf h dm).bullet_length ≤ 0 ∨
      (ballisticInputsOf h dm).muzzle_velocity ≤ 0 := by
    rcases hnp with hx | hx | hx | hx | hx
    · exact Or.inl hx
    · refine Or.inr (Or.inl ?_)
      show h.bullet_weight_grains * GRAINS_TO_KG ≤ 0
      have hg : (0:ℚ) ≤ GRAINS_TO_KG := by norm_num [GRAINS_TO_KG]
      simpa using mul_le_mul_of_nonneg_right hx hg
    · refine Or.inr (Or.inr (Or.inl ?_))
      show h.bullet_diameter_inches * INCHES_TO_METERS ≤ 0
      have hg : (0:ℚ) ≤ INCHES_TO_METERS := by norm_num [INCHES_TO_METERS]
      simpa using mul_le_mul_of_nonneg_right hx hg
    · refine Or.inr (Or.inr (Or.inr (Or.inl ?_)))
      show h.bullet_length_inches * INCHES_TO_METERS ≤ 0
      have hg : (0:ℚ) ≤ INCHES_TO_METERS := by norm_num [INCHES_TO_METERS]
      simpa using mul_le_mul_of_nonneg_right hx hg
    · refine Or.inr (Or.inr (Or.inr (Or.inr ?_)))
      show h.muzzle_velocity_fps * FPS_TO_MPS ≤ 0
      have hg : (0:ℚ) ≤ FPS_TO_MPS := by norm_num [FPS_TO_MPS]
      simpa using mul_le_mul_of_nonneg_right hx hg
  have hstep : solve_trajectory (specValidatingSolver integrate) h
      = solveAfterDrag (specValidatingSolver integrate) h dm := by
    unfold solve_trajectory
    rw [hdm]
  rw [hstep]
  unfold solveAfterDrag specValidatingSolver
  rw [if_pos hcond]

/-- A concrete accepted input hash whose ballistic coefficient is not
strictly positive. -/
def zeroBcHash : InputsHash := { sampleHash with bc := 0 }

/-- Witness for C4 at the concrete hash `zeroBcHash` (bc = 0) and the
concrete post-validation solver `coreOkStub`. -/
theorem nonpositive_inputs_fail_validation_witness :
    solve_trajectory (specValidatingSolver coreOkStub) zeroBcHash
      = Except.error (RubyError.runtimeError validationErrorMsg) :=
  nonpositive_inputs_fail_validation coreOkStub zeroBcHash DragModel.G7 (by decide)
    (Or.inl (le_refl 0))

/-- C7: every call either propagates the core solver's error synchronously,
exactly once and unchanged (wrapped in a Ruby `RuntimeError` carrying the
solver's human-readable description), or returns the complete assembled
result hash — there is no internal retry and no partial result. -/
theorem single_error_or_complete_result (core : CoreSolver) (h : InputsHash)
    (dm : DragModel)
    (hdm : parseDragModel (h.drag_model.getD "G7") = Except.ok dm) :
    (∀ msg, core (ballisticInputsOf h dm) (windOf h.wind) (atmosphereOf h.atmosphere)
        = Except.error msg →
      solve_trajectory core h = Except.error (RubyError.runtimeError msg)) ∧
    (∀ r, core (ballisticInputsOf h dm) (windOf h.wind) (atmosphereOf h.atmosphere)
        = Except.ok r →
      solve_trajectory core h = Except.ok (resultHashOf r)) := by
  have hstep : solve_trajectory core h = solveAfterDrag core h dm := by
    unfold solve_trajectory
    rw [hdm]
  constructor
  · intro msg hc
    rw [hstep]
    unfold solveAfterDrag
    rw [hc]
  · intro r hc
    rw [hstep]
    unfold solveAfterDrag
    rw [hc]

/-- Witness for C7 at the concrete hash `sampleHash` and the concrete
always-failing core `coreFailStub`: the core's message is carried through. -/
theorem single_error_or_complete_result_witness :
    solve_trajectory coreFailStub sampleHash
      = Except.error (RubyError.runtimeError "solver failed") :=
  (single_error_or_complete_result coreFailStub sampleHash DragModel.G7 (by decide)).1
    "solver failed" rfl

/-- C8: on success the returned hash carries max range and max height in
yards (division by 0.9144), time of flight unchanged, impact velocity in
fps (division by 0.3048), impact energy in ft-lbs (multiplication by
0.737562), plus a points sequence with exactly one entry per core
trajectory point, in the same order, each carrying time,
downrange/vertical/lateral position in yards, speed magnitude in fps, and
kinetic energy in ft-lbs. -/
theorem success_output_shape (core : CoreSolver) (h : InputsHash)
    (dm : DragModel) (r : TrajectoryResult)
    (hdm : parseDragModel (h.drag_model.getD "G7") = Except.ok dm)
    (hcore : core (ballisticInputsOf h dm) (windOf h.wind) (atmosphereOf h.atmosphere)
      = Except.ok r) :
    solve_trajectory core h = Except.ok
      { max_range_yards := r.max_range / YARDS_TO_METERS
        max_height_yards := r.max_height / YARDS_TO_METERS
        time_of_flight := r.time_of_flight
        impact_velocity_fps := r.impact_velocity / FPS_TO_MPS
        impact_energy_ftlbs := r.impact_energy * JOULES_TO_FTLBS
        points := r.points.map (fun p =>
          { time := p.time
            x := p.position.x / YARDS_TO_METERS
            y := p.position.y / YARDS_TO_METERS
            z := p.position.z / YARDS_TO_METERS
            velocity_fps := p.velocity_magnitude / FPS_TO_MPS
            energy_ftlbs := p.kinetic_energy * JOULES_TO_FTLBS }) } ∧
    (resultHashOf r).points.length = r.points.length := by
  have hstep : solve_trajectory core h = solveAfterDrag core h dm := by
    unfold solve_trajectory
    rw [hdm]
  constructor
  · rw [hstep]
    unfold solveAfterDrag
    rw [hcore]
    rfl
  · simp [resultHashOf]

/-- Witness for C8 at the concrete hash `sampleHash` and the concrete
always-succeeding core `coreOkStub`. -/
theorem success_output_shape_witness :
    solve_trajectory coreOkStub sampleHash = Except.ok
      { max_range_yards := sampleResult.max_range / YARDS_TO_METERS
        max_height_yards := sampleResult.max_height / YARDS_TO_METERS
        time_of_flight := sampleResult.time_of_flight
        impact_velocity_fps := sampleResult.impact_velocity / FPS_TO_MPS
        impact_energy_ftlbs := sampleResult.impact_energy * JOULES_TO_FTLBS
        points := sampleResult.points.map (fun p =>
          { time := p.time
            x := p.position.x / YARDS_TO_METERS
            y := p.position.y / YARDS_TO_METERS
            z := p.position.z / YARDS_TO_METERS
            velocity_fps := p.velocity_magnitude / FPS_TO_MPS
            energy_ftlbs := p.kinetic_energy * JOULES_TO_FTLBS }) } ∧
    (resultHashOf sampleResult).points.length = sampleResult.points.length :=
  success_output_shape coreOkStub sampleHash DragModel.G7 sampleResult (by decide) rfl
